import Mathlib

/-!
Shallow embedding of `src/app_py.py` (Streamlit medical-cost predictor).

Numeric values (Python ints and floats) are modelled as `ℤ` and `ℚ`.
The trained pipeline artifact is opaque in the source (joblib-loaded
object exposing `predict`); it is modelled as a function from the
feature frame to `Except String ℚ`, where `Except.error` stands for a
Python exception raised during `stack.predict(features_df)[0]` and the
string carries the exception text.
-/

namespace App

/-- A cell value of the single-row feature record (`input_data` maps
field names to Python ints, floats and strings). -/
inductive Value where
  | int (i : ℤ)
  | rat (q : ℚ)
  | str (s : String)
  deriving DecidableEq, Repr

/-- One row of the pandas DataFrame: an ordered association of column
names to values (pandas keys columns by name). -/
abbrev Row : Type := List (String × Value)

/-- The DataFrame passed to the pipeline: a list of rows. -/
abbrev Frame : Type := List Row

/-- The opaque trained pipeline: `stack.predict(features_df)[0]`.
`Except.error c` models a Python exception with text `c` raised inside
the call; `Except.ok q` models a normal return of the first predicted
value. -/
abbrev Pipeline : Type := Frame → Except String ℚ

/-- Source line 15: `USD_TO_INR_RATE = 83.50`. -/
def USD_TO_INR_RATE : ℚ := 83.50

/-- The six widget-produced variables gathered at lines 54-74 of the
source (`age`, `sex`, `bmi`, `children`, `smoker`, `region`). -/
structure Inputs where
  age : ℤ
  sex : String
  bmi : ℚ
  children : ℤ
  smoker : String
  region : String
  deriving DecidableEq, Repr

/-- Source lines 84-91: the dictionary of user inputs, in source order. -/
def input_data (i : Inputs) : Row :=
  [("age", Value.int i.age),
   ("sex", Value.str i.sex),
   ("bmi", Value.rat i.bmi),
   ("children", Value.int i.children),
   ("smoker", Value.str i.smoker),
   ("region", Value.str i.region)]

/-- Source line 94: `features_df = pd.DataFrame([input_data])` — a
single-row frame. -/
def features_df (i : Inputs) : Frame :=
  [input_data i]

/-- What the button handler renders: either the success metrics
(`prediction_usd`, `prediction_inr`, lines 100-123) or the single
`st.error` message of the handler at line 141. -/
inductive AppOutput where
  | success (prediction_usd prediction_inr : ℚ)
  | errorMsg (msg : String)
  deriving DecidableEq, Repr

/-- The fixed text of the `st.error` call at line 141, up to the
interpolated exception details. -/
def predictionErrorText : String :=
  "An error occurred during prediction. Please check model and inputs. Error details: "

/-- Source lines 98-141 with the conversion rate abstracted as a
parameter (in the source it is the constant `USD_TO_INR_RATE`): invoke
the pipeline once, on success compute `prediction_inr =
prediction_usd * rate`, on exception render the generic error message.
The second component counts how many times `stack.predict` was invoked
by the handler. -/
def runPredictionRateN (rate : ℚ) (stack : Pipeline) (i : Inputs) : AppOutput × ℕ :=
  match stack (features_df i) with
  | Except.ok prediction_usd =>
      (AppOutput.success prediction_usd (prediction_usd * rate), 1)
  | Except.error e =>
      (AppOutput.errorMsg (predictionErrorText ++ e), 1)

/-- The button handler as in the source, with the hardcoded rate. -/
def runPredictionN (stack : Pipeline) (i : Inputs) : AppOutput × ℕ :=
  runPredictionRateN USD_TO_INR_RATE stack i

/-- The rendered output of the button handler. -/
def runPrediction (stack : Pipeline) (i : Inputs) : AppOutput :=
  (runPredictionN stack i).1

/-- The rendered output with the rate constant abstracted. -/
def runPredictionRate (rate : ℚ) (stack : Pipeline) (i : Inputs) : AppOutput :=
  (runPredictionRateN rate stack i).1

/-- The state of the artifact file `medical_cost_stack.pkl` on disk:
absent, present but failing to deserialize (with exception text), or
present and deserializing to a pipeline. -/
inductive ArtifactState where
  | missing
  | corrupt (e : String)
  | valid (p : Pipeline)

/-- The two failure branches of `load_pipeline` (lines 26-32): the
`FileNotFoundError` branch and the generic `Exception` branch, each
rendering its own distinct `st.error` message before `st.stop()`. -/
inductive LoadError where
  | fileNotFound (msg : String)
  | corruptLoad (msg : String)
  deriving DecidableEq, Repr

/-- The `st.error` text of the `FileNotFoundError` branch (lines 27-28). -/
def notFoundMsg : String :=
  "Error: Model file medical_cost_stack.pkl not found. Please ensure the file is in the root of your GitHub repository."

/-- Source lines 19-32: `joblib.load` on the artifact, with the
`FileNotFoundError` and generic `Exception` handlers mapped to the two
distinct error outcomes. -/
def load_pipeline (a : ArtifactState) : Except LoadError Pipeline :=
  match a with
  | ArtifactState.missing => Except.error (LoadError.fileNotFound notFoundMsg)
  | ArtifactState.corrupt e => Except.error (LoadError.corruptLoad ("Error loading model: " ++ e))
  | ArtifactState.valid p => Except.ok p

/-- The process-wide cache installed by `@st.cache_resource` on
`load_pipeline` (line 18): an optional memoized pipeline plus a count
of how many times the artifact file has been read. -/
structure Registry where
  cache : Option Pipeline
  readCount : ℕ

/-- The cached accessor: a call to the `@st.cache_resource`-decorated
`load_pipeline` (line 35). A cache hit returns the memoized instance
with no file read; a miss reads the file (incrementing `readCount`) and
memoizes the pipeline only on success (Streamlit does not cache a run
that ends in `st.stop`). -/
def Registry.get (r : Registry) (a : ArtifactState) : Except LoadError Pipeline × Registry :=
  match r.cache with
  | some p => (Except.ok p, r)
  | none =>
      match load_pipeline a with
      | Except.ok p => (Except.ok p, { cache := some p, readCount := r.readCount + 1 })
      | Except.error e => (Except.error e, { cache := none, readCount := r.readCount + 1 })

/-- One full script run ending in a button press: fetch the pipeline
through the cache (line 35), then run the prediction handler (lines
98-141); a load failure renders its `st.error` message and stops. -/
def appRun (r : Registry) (a : ArtifactState) (i : Inputs) : AppOutput × Registry :=
  match Registry.get r a with
  | (Except.ok p, r2) => (runPrediction p i, r2)
  | (Except.error (LoadError.fileNotFound m), r2) => (AppOutput.errorMsg m, r2)
  | (Except.error (LoadError.corruptLoad m), r2) => (AppOutput.errorMsg m, r2)

/-- Model of `st.slider(label, lo, hi, default)` (lines 54 and 67): the
widget only ever yields a value within its declared bounds; a request
outside them is replaced by the declared default. -/
def st_slider (lo hi default choice : ℤ) : ℤ :=
  if lo ≤ choice ∧ choice ≤ hi then choice else default

/-- Model of `st.number_input(label, lo, hi, default, step)` (line 64):
same bounding behaviour over floats. -/
def st_number_input (lo hi default choice : ℚ) : ℚ :=
  if lo ≤ choice ∧ choice ≤ hi then choice else default

/-- Model of `st.selectbox(label, options)` (lines 57, 60, 74): the
widget yields exactly one of its fixed options, selected by index. -/
def st_selectbox (options : List String) (choice : ℕ) : String :=
  options.getD (choice % options.length) ""

/-- The raw user interaction with the six widgets: a requested slider
position or typed number for each numeric widget, a selected index for
each selectbox. -/
structure UserChoices where
  ageChoice : ℤ
  sexChoice : ℕ
  smokerChoice : ℕ
  bmiChoice : ℚ
  childrenChoice : ℤ
  regionChoice : ℕ

/-- Source lines 52-77: the six input widgets with their bounds, option
lists and defaults exactly as declared. -/
def gatherInputs (u : UserChoices) : Inputs :=
  { age := st_slider 18 65 30 u.ageChoice
    sex := st_selectbox ["male", "female"] u.sexChoice
    bmi := st_number_input 15.0 55.0 25.0 u.bmiChoice
    children := st_slider 0 5 0 u.childrenChoice
    smoker := st_selectbox ["no", "yes"] u.smokerChoice
    region := st_selectbox ["southeast", "southwest", "northeast", "northwest"] u.regionChoice }

/-- The documented domains of the six profile fields (spec section 3). -/
def inDomain (i : Inputs) : Prop :=
  18 ≤ i.age ∧ i.age ≤ 65 ∧
  i.sex ∈ ["male", "female"] ∧
  15 ≤ i.bmi ∧ i.bmi ≤ 55 ∧
  0 ≤ i.children ∧ i.children ≤ 5 ∧
  i.smoker ∈ ["no", "yes"] ∧
  i.region ∈ ["southeast", "southwest", "northeast", "northwest"]

instance (i : Inputs) : Decidable (inDomain i) := by
  unfold inDomain; infer_instance

/-- The scenario profile of the spec: age 30, male, bmi 25.0, no
children, non-smoker, southeast. -/
def defaultInputs : Inputs :=
  { age := 30, sex := "male", bmi := 25, children := 0, smoker := "no", region := "southeast" }

/-- An out-of-domain profile: age 17, all other fields in domain. -/
def age17Inputs : Inputs :=
  { age := 17, sex := "male", bmi := 25, children := 0, smoker := "no", region := "southeast" }

/-- A pipeline that always predicts 100 (USD). -/
def constStack : Pipeline := fun _ => Except.ok 100

/-- A pipeline that always predicts the negative value -5. -/
def negStack : Pipeline := fun _ => Except.ok (-5)

/-- A pipeline that always raises, with exception text `c`. -/
def failStack (c : String) : Pipeline := fun _ => Except.error c

/-- The registry at process start: nothing cached, no file read yet. -/
def freshRegistry : Registry := { cache := none, readCount := 0 }

/-- C1: on every successful prediction the converted amount equals the
base-currency prediction multiplied by the conversion rate, computed in
the same numeric type; with the hardcoded rate 83.50 (= 167/2),
amount_converted = amount_base * 83.50 exactly. -/
theorem C1_conversion_law (stack : Pipeline) (i : Inputs) (q : ℚ)
    (h : stack (features_df i) = Except.ok q) :
    runPrediction stack i = AppOutput.success q (q * USD_TO_INR_RATE) ∧
    USD_TO_INR_RATE = 167 / 2 := by
  refine ⟨?_, by norm_num [USD_TO_INR_RATE]⟩
  simp [runPrediction, runPredictionN, runPredictionRateN, h]

/-- Witness for C1 at the spec scenario profile with a pipeline
predicting 100 USD. -/
theorem C1_conversion_law_witness :
    constStack (features_df defaultInputs) = Except.ok 100 ∧
    (runPrediction constStack defaultInputs =
       AppOutput.success 100 (100 * USD_TO_INR_RATE) ∧
     USD_TO_INR_RATE = 167 / 2) :=
  ⟨rfl, C1_conversion_law constStack defaultInputs 100 rfl⟩

/-- C2 counterexample: for the out-of-domain profile with age 17 the
handler does not fail with any InvalidProfile error — it invokes the
pipeline (exactly once) and returns its result as a successful
prediction. -/
theorem C2_counterexample :
    ¬ inDomain age17Inputs ∧
    runPredictionN constStack age17Inputs =
      (AppOutput.success 100 (100 * USD_TO_INR_RATE), 1) :=
  ⟨by decide, rfl⟩

/-- C2 amended: the handler performs no domain re-validation at all.
For any out-of-domain profile the pipeline is still invoked exactly
once, and a successful pipeline result is returned as a successful
prediction; no InvalidProfile failure exists in the code (domain
enforcement happens only at the input widgets). -/
theorem C2_no_validation (stack : Pipeline) (i : Inputs) (q : ℚ)
    (_hdom : ¬ inDomain i) (h : stack (features_df i) = Except.ok q) :
    (runPredictionN stack i).2 = 1 ∧
    (runPredictionN stack i).1 = AppOutput.success q (q * USD_TO_INR_RATE) := by
  simp [runPredictionN, runPredictionRateN, h]

/-- Witness for the amended C2 at the age-17 profile. -/
theorem C2_no_validation_witness :
    ¬ inDomain age17Inputs ∧
    constStack (features_df age17Inputs) = Except.ok 100 ∧
    ((runPredictionN constStack age17Inputs).2 = 1 ∧
     (runPredictionN constStack age17Inputs).1 =
       AppOutput.success 100 (100 * USD_TO_INR_RATE)) :=
  ⟨by decide, rfl, C2_no_validation constStack age17Inputs 100 (by decide) rfl⟩

/-- C3 counterexample: a pipeline returning the negative value -5 does
not make the handler fail with InferenceFailed — the negative amount is
returned to the caller as a successful prediction. -/
theorem C3_counterexample :
    runPrediction negStack defaultInputs =
      AppOutput.success (-5) (-5 * USD_TO_INR_RATE) := rfl

/-- C3 amended: the handler applies no range check to the pipeline
output; whatever number the pipeline returns — negative included — is
returned unchanged as amount_base of a successful prediction. -/
theorem C3_no_range_check (stack : Pipeline) (i : Inputs) (q : ℚ)
    (_hq : q < 0) (h : stack (features_df i) = Except.ok q) :
    runPrediction stack i = AppOutput.success q (q * USD_TO_INR_RATE) := by
  simp [runPrediction, runPredictionN, runPredictionRateN, h]

/-- Witness for the amended C3 with a pipeline predicting -5. -/
theorem C3_no_range_check_witness :
    (-5 : ℚ) < 0 ∧ negStack (features_df defaultInputs) = Except.ok (-5) ∧
    runPrediction negStack defaultInputs =
      AppOutput.success (-5) (-5 * USD_TO_INR_RATE) :=
  ⟨by norm_num, rfl, C3_no_range_check negStack defaultInputs (-5) (by norm_num) rfl⟩

/-- C4 counterexample: with conversion rate 0 the handler does not fail
with InvalidConfiguration — the converted amount is computed anyway and
a successful prediction with amount_converted = 0 is returned. -/
theorem C4_counterexample :
    runPredictionRate 0 constStack defaultInputs = AppOutput.success 100 0 := by
  norm_num [runPredictionRate, runPredictionRateN, constStack]

/-- C4 amended: the conversion rate is never validated. For any rate
value (zero and negative included) the conversion is computed and a
successful result returned; the rate actually hardcoded in the source
is the strictly positive constant 83.50. -/
theorem C4_no_rate_check (rate : ℚ) (stack : Pipeline) (i : Inputs) (q : ℚ)
    (h : stack (features_df i) = Except.ok q) :
    runPredictionRate rate stack i = AppOutput.success q (q * rate) ∧
    0 < USD_TO_INR_RATE := by
  constructor
  · simp [runPredictionRate, runPredictionRateN, h]
  · norm_num [USD_TO_INR_RATE]

/-- Witness for the amended C4 at rate 0. -/
theorem C4_no_rate_check_witness :
    constStack (features_df defaultInputs) = Except.ok 100 ∧
    (runPredictionRate 0 constStack defaultInputs =
       AppOutput.success 100 (100 * 0) ∧
     0 < USD_TO_INR_RATE) :=
  ⟨rfl, C4_no_rate_check 0 constStack defaultInputs 100 rfl⟩

/-- C5: with an uncached registry, a missing artifact makes the load
fail with the file-not-found error (and leaves nothing cached, so every
later call fails the same way, never yielding a pipeline); a present
but undeserializable artifact fails with the distinct load error. -/
theorem C5_artifact_errors (r : Registry) (e : String) (h : r.cache = none) :
    (Registry.get r ArtifactState.missing).1 =
      Except.error (LoadError.fileNotFound notFoundMsg) ∧
    ((Registry.get r ArtifactState.missing).2).cache = none ∧
    (∀ p : Pipeline,
      (Registry.get r ArtifactState.missing).1 ≠ Except.ok p) ∧
    (Registry.get r (ArtifactState.corrupt e)).1 =
      Except.error (LoadError.corruptLoad ("Error loading model: " ++ e)) ∧
    LoadError.fileNotFound notFoundMsg ≠
      LoadError.corruptLoad ("Error loading model: " ++ e) := by
  refine ⟨?_, ?_, ?_, ?_, by simp⟩ <;>
    simp [Registry.get, load_pipeline, h]

/-- Witness for C5 at the fresh registry. -/
theorem C5_artifact_errors_witness :
    freshRegistry.cache = none ∧
    ((Registry.get freshRegistry ArtifactState.missing).1 =
       Except.error (LoadError.fileNotFound notFoundMsg) ∧
     ((Registry.get freshRegistry ArtifactState.missing).2).cache = none ∧
     (∀ p : Pipeline,
       (Registry.get freshRegistry ArtifactState.missing).1 ≠ Except.ok p) ∧
     (Registry.get freshRegistry (ArtifactState.corrupt "bad pickle")).1 =
       Except.error (LoadError.corruptLoad ("Error loading model: " ++ "bad pickle")) ∧
     LoadError.fileNotFound notFoundMsg ≠
       LoadError.corruptLoad ("Error loading model: " ++ "bad pickle")) :=
  ⟨rfl, C5_artifact_errors freshRegistry "bad pickle" rfl⟩

/-- C6: once a call to the cached loader has succeeded, every
subsequent call returns the very same pipeline instance and leaves the
registry unchanged — in particular the read count does not grow, so no
further file read occurs; the first successful call from an empty cache
performs exactly one read. -/
theorem C6_single_load (r r2 : Registry) (a : ArtifactState) (p : Pipeline)
    (h : Registry.get r a = (Except.ok p, r2)) :
    Registry.get r2 a = (Except.ok p, r2) ∧
    (r.cache = none → r2.readCount = r.readCount + 1) := by
  unfold Registry.get at h
  cases hc : r.cache with
  | some p0 =>
      rw [hc] at h
      simp only [Prod.mk.injEq, Except.ok.injEq] at h
      obtain ⟨hp, hr⟩ := h
      subst hp; subst hr
      constructor
      · unfold Registry.get; rw [hc]
      · intro hn; exact Option.noConfusion hn
  | none =>
      rw [hc] at h
      cases hl : load_pipeline a with
      | ok p1 =>
          rw [hl] at h
          simp only [Prod.mk.injEq, Except.ok.injEq] at h
          obtain ⟨hp, hr⟩ := h
          subst hp; subst hr
          constructor
          · unfold Registry.get; rfl
          · intro _; rfl
      | error e =>
          rw [hl] at h
          simp at h

/-- Witness for C6: first load from the fresh registry on a valid
artifact. -/
theorem C6_single_load_witness :
    Registry.get freshRegistry (ArtifactState.valid constStack) =
      (Except.ok constStack, { cache := some constStack, readCount := 1 }) ∧
    (Registry.get { cache := some constStack, readCount := 1 }
        (ArtifactState.valid constStack) =
      (Except.ok constStack, { cache := some constStack, readCount := 1 }) ∧
     (freshRegistry.cache = none →
       ({ cache := some constStack, readCount := 1 } : Registry).readCount =
         freshRegistry.readCount + 1)) :=
  ⟨rfl, C6_single_load freshRegistry { cache := some constStack, readCount := 1 }
    (ArtifactState.valid constStack) constStack rfl⟩

/-- C7: with the pipeline already cached, running the script (load +
predict) twice on the same profile gives the same output and the same
registry state both times, and on any successful run the converted
amount equals the base amount times the rate exactly. -/
theorem C7_idempotent (r : Registry) (a : ArtifactState) (i : Inputs) (p : Pipeline)
    (h : r.cache = some p) :
    appRun r a i = appRun (appRun r a i).2 a i ∧
    ∀ usd inr, (appRun r a i).1 = AppOutput.success usd inr →
      inr = usd * USD_TO_INR_RATE := by
  have hg : Registry.get r a = (Except.ok p, r) := by
    unfold Registry.get; rw [h]
  have ha : appRun r a i = (runPrediction p i, r) := by
    unfold appRun; rw [hg]
  constructor
  · rw [ha]; exact ha.symm
  · intro usd inr hs
    rw [ha] at hs
    unfold runPrediction runPredictionN runPredictionRateN at hs
    cases hq : p (features_df i) with
    | ok q =>
        rw [hq] at hs
        simp only [AppOutput.success.injEq] at hs
        obtain ⟨h1, h2⟩ := hs
        rw [← h1, ← h2]
    | error e =>
        rw [hq] at hs
        simp at hs

/-- Witness for C7 at a registry with the constant pipeline cached. -/
theorem C7_idempotent_witness :
    ({ cache := some constStack, readCount := 1 } : Registry).cache = some constStack ∧
    (appRun { cache := some constStack, readCount := 1 }
        (ArtifactState.valid constStack) defaultInputs =
      appRun (appRun { cache := some constStack, readCount := 1 }
          (ArtifactState.valid constStack) defaultInputs).2
        (ArtifactState.valid constStack) defaultInputs ∧
     ∀ usd inr,
       (appRun { cache := some constStack, readCount := 1 }
           (ArtifactState.valid constStack) defaultInputs).1 =
         AppOutput.success usd inr →
       inr = usd * USD_TO_INR_RATE) :=
  ⟨rfl, C7_idempotent { cache := some constStack, readCount := 1 }
    (ArtifactState.valid constStack) defaultInputs constStack rfl⟩

/-- C8: the frame passed to the pipeline has exactly one row, its
column names are exactly age, sex, bmi, children, smoker, region in
that order, and the categorical string values are carried through
unchanged. -/
theorem C8_feature_schema (i : Inputs) :
    (features_df i).length = 1 ∧
    ((features_df i).headD []).map Prod.fst =
      ["age", "sex", "bmi", "children", "smoker", "region"] ∧
    ((features_df i).headD []).lookup "sex" = some (Value.str i.sex) ∧
    ((features_df i).headD []).lookup "smoker" = some (Value.str i.smoker) ∧
    ((features_df i).headD []).lookup "region" = some (Value.str i.region) :=
  ⟨rfl, rfl, rfl, rfl, rfl⟩

/-- C9: when the pipeline raises, the handler yields exactly one error
message — the generic text with the concrete exception details appended
— never a success value; distinct exception details yield distinct
messages. -/
theorem C9_failure_reporting (stack : Pipeline) (i : Inputs) (c : String)
    (h : stack (features_df i) = Except.error c) :
    runPrediction stack i = AppOutput.errorMsg (predictionErrorText ++ c) ∧
    (∀ usd inr, runPrediction stack i ≠ AppOutput.success usd inr) ∧
    (∀ c2, predictionErrorText ++ c2 = predictionErrorText ++ c → c2 = c) := by
  refine ⟨?_, ?_, ?_⟩
  · simp [runPrediction, runPredictionN, runPredictionRateN, h]
  · intro usd inr hne
    simp [runPrediction, runPredictionN, runPredictionRateN, h] at hne
  · intro c2 he
    apply String.ext
    have hd := congrArg String.data he
    simp only [String.data_append] at hd
    exact List.append_cancel_left hd

/-- Witness for C9 with a pipeline raising an unseen-category error. -/
theorem C9_failure_reporting_witness :
    failStack "encoder rejected category" (features_df defaultInputs) =
      Except.error "encoder rejected category" ∧
    (runPrediction (failStack "encoder rejected category") defaultInputs =
       AppOutput.errorMsg (predictionErrorText ++ "encoder rejected category") ∧
     (∀ usd inr,
       runPrediction (failStack "encoder rejected category") defaultInputs ≠
         AppOutput.success usd inr) ∧
     (∀ c2, predictionErrorText ++ c2 =
         predictionErrorText ++ "encoder rejected category" →
       c2 = "encoder rejected category")) :=
  ⟨rfl, C9_failure_reporting (failStack "encoder rejected category")
    defaultInputs "encoder rejected category" rfl⟩

/-- C10: whatever the user does with the widgets, the gathered profile
is within the documented domains: the sliders and the number input are
bounded to [18,65], [0,5] and [15.0,55.0], and the selectboxes only
yield members of their fixed option lists. -/
theorem st_slider_bounds (lo hi default choice : ℤ)
    (h1 : lo ≤ default) (h2 : default ≤ hi) :
    lo ≤ st_slider lo hi default choice ∧ st_slider lo hi default choice ≤ hi := by
  unfold st_slider
  split
  · assumption
  · exact ⟨h1, h2⟩

theorem st_number_input_bounds (lo hi default choice : ℚ)
    (h1 : lo ≤ default) (h2 : default ≤ hi) :
    lo ≤ st_number_input lo hi default choice ∧
      st_number_input lo hi default choice ≤ hi := by
  unfold st_number_input
  split
  · assumption
  · exact ⟨h1, h2⟩

theorem C10_widget_domains (u : UserChoices) : inDomain (gatherInputs u) := by
  have hage := st_slider_bounds 18 65 30 u.ageChoice (by norm_num) (by norm_num)
  have hch := st_slider_bounds 0 5 0 u.childrenChoice (by norm_num) (by norm_num)
  have hbmi := st_number_input_bounds 15.0 55.0 25.0 u.bmiChoice (by norm_num) (by norm_num)
  have hsex : st_selectbox ["male", "female"] u.sexChoice ∈ ["male", "female"] := by
    rcases Nat.mod_two_eq_zero_or_one u.sexChoice with h | h <;> simp [st_selectbox, h]
  have hsmoker : st_selectbox ["no", "yes"] u.smokerChoice ∈ ["no", "yes"] := by
    rcases Nat.mod_two_eq_zero_or_one u.smokerChoice with h | h <;> simp [st_selectbox, h]
  have hregion : st_selectbox ["southeast", "southwest", "northeast", "northwest"]
      u.regionChoice ∈ ["southeast", "southwest", "northeast", "northwest"] := by
    have h : u.regionChoice % 4 = 0 ∨ u.regionChoice % 4 = 1 ∨
        u.regionChoice % 4 = 2 ∨ u.regionChoice % 4 = 3 := by omega
    rcases h with h | h | h | h <;> simp [st_selectbox, h]
  exact ⟨hage.1, hage.2, hsex, le_trans (by norm_num) hbmi.1,
    le_trans hbmi.2 (by norm_num), hch.1, hch.2, hsmoker, hregion⟩

end App
